import Mathlib

set_option linter.unnecessarySeqFocus false

/-!
Verification of the Strathon design-system data layer against its
natural-language specification: the request client
(`packages/ui/src/lib/api-client.ts`, `StrathonAPIClient`) and the
reconnecting event-stream client (`websocket-client.ts`,
`StrathonWebSocketClient`), together with the cache bridge inside the
latter's message dispatch.

The embedding translates the TypeScript sources into executable Lean
definitions.  Asynchrony is modelled by explicit time passing: a
transport is a function from attempt index to the behaviour the
`fetch` call would exhibit (an HTTP response or a rejected promise,
each with a duration), and the `AbortController` discipline is
modelled by an absolute abort deadline computed from the per-request
timeout and an optional external cancellation time.  The event-stream
client's handlers (`handleMessage`, `handleClose`, `attemptReconnect`,
`connect`, `send`) become functions on an explicit client-state
record that also return the externally observable effects (cache
invalidations, callbacks, scheduled timers).
-/

namespace DesignSystem
namespace ApiClient

/-- Client configuration (`APIConfig` together with the per-request
`RequestOptions` overrides; the string `baseURL` plays no role in the
control flow and is omitted). -/
structure APIConfig where
  timeoutMs : Nat
  retryAttempts : Nat
  retryDelayMs : Nat
  enableMetrics : Bool
  enableTracing : Bool
deriving DecidableEq, Repr

/-- Default configuration of the client (`defaultConfig` in
`api-client.ts`). -/
def defaultConfig : APIConfig :=
  { timeoutMs := 10000
    retryAttempts := 3
    retryDelayMs := 1000
    enableMetrics := true
    enableTracing := true }

/-- What one `fetch` call would do, absent any abort: either resolve
with an HTTP response (status, whether the body passes
`isValidAPIResponse`, and how long the round trip takes), or reject
with a non-abort exception after the given duration. -/
inductive TransportBehavior where
  | respond (status : Nat) (validBody : Bool) (duration : Nat)
  | raise (duration : Nat)
deriving DecidableEq, Repr

/-- Duration of the transport interaction. -/
def TransportBehavior.duration : TransportBehavior → Nat
  | .respond _ _ d => d
  | .raise d => d

/-- Whether `response.ok` holds: status in the 200–299 range. -/
def isOkStatus (status : Nat) : Bool :=
  decide (200 ≤ status) && decide (status < 300)

/-- How an awaited `fetch` settles once the abort signal is taken
into account. -/
inductive FetchResult where
  | response (status : Nat) (validBody : Bool)
  | abortError
  | genericError
deriving DecidableEq, Repr

/-- One `await fetch(...)` under an abort deadline: if the signal is
already aborted when the call starts, or fires before the transport
interaction would finish, the promise rejects with `AbortError`;
otherwise the transport behaviour is observed.  Returns the settle
result and the absolute time at which it settles. -/
def attemptFetch (deadline start : Nat) (b : TransportBehavior) :
    FetchResult × Nat :=
  if deadline ≤ start then (.abortError, start)
  else if deadline < start + b.duration then (.abortError, deadline)
  else
    match b with
    | .respond status valid d => (.response status valid, start + d)
    | .raise d => (.genericError, start + d)

/-- The error value held in `lastError` when an attempt fails
retryably or fatally (the `AbortError` case never reaches
`lastError`-based finalisation: it is rethrown as `TimeoutError`
at once). -/
inductive CaughtError where
  | apiError (status : Nat) (code : String)
  | generic
deriving DecidableEq, Repr

/-- Final settle of one logical `request` call.  In the
specification's taxonomy, `protocolError` is `APIError`
(ProtocolError), `networkError` is `NetworkError` (TransportError),
and `timeoutError` is `TimeoutError`. -/
inductive RequestResult where
  | ok
  | protocolError (status : Nat) (code : String)
  | networkError
  | timeoutError (budgetMs : Nat)
deriving DecidableEq, Repr

/-- Log entry for one transport attempt: when it started, how long
the underlying transport interaction would have taken, and how the
awaited `fetch` actually settled. -/
structure AttemptLog where
  start : Nat
  dur : Nat
  result : FetchResult
deriving DecidableEq, Repr

/-- Fields of `RequestMetrics` that the claims mention (url/timing
fields are carried by the attempt log instead). -/
structure MetricSample where
  status : Nat
  success : Bool
  retryCount : Nat
  requestId : String
deriving DecidableEq, Repr

/-- Observable trace of one logical `request` call: every transport
attempt, every metric sample appended by `collectMetrics`, every
backoff delay slept, and the correlation-id / trace-id headers sent
with each attempt. -/
structure Trace where
  attempts : List AttemptLog
  samples : List MetricSample
  delays : List Nat
  sentCorrelationIds : List String
  sentTraceIds : List String
deriving DecidableEq, Repr

/-- The empty trace at the start of a call. -/
def Trace.empty : Trace :=
  { attempts := [], samples := [], delays := []
    sentCorrelationIds := [], sentTraceIds := [] }

/-- Model of `collectMetrics`: push the sample, then keep only the
last 1000 entries. -/
def collectMetrics (samples : List MetricSample) (m : MetricSample) :
    List MetricSample :=
  let l := samples ++ [m]
  if 1000 < l.length then l.drop (l.length - 1000) else l

/-- The statuses the retry loop refuses to retry
(`error.status === 401 || 403 || 404`). -/
def noRetryStatus (status : Nat) : Bool :=
  status == 401 || status == 403 || status == 404

/-- The `break` condition of the catch block, on the caught error. -/
def caughtNoRetry : CaughtError → Bool
  | .apiError status _ => noRetryStatus status
  | .generic => false

/-- The code after the retry loop exhausts:
`lastError instanceof APIError ? throw lastError : throw NetworkError`. -/
def finalize (lastError : Option CaughtError) : RequestResult :=
  match lastError with
  | some (.apiError status code) => .protocolError status code
  | some .generic => .networkError
  | none => .networkError

/-- Record one transport attempt: the attempt log entry and the
headers the attempt carried (the single `X-Request-ID` value, and
the single `X-Trace-ID` value when tracing is enabled — both were
set on the shared `headers` object before the loop). -/
def logAttempt (cfg : APIConfig) (requestId traceId : String)
    (e : AttemptLog) (tr : Trace) : Trace :=
  { tr with
    attempts := tr.attempts ++ [e]
    sentCorrelationIds := tr.sentCorrelationIds ++ [requestId]
    sentTraceIds :=
      tr.sentTraceIds ++ (if cfg.enableTracing then [traceId] else []) }

/-- The `collectMetrics` call site: a sample is appended exactly when
the `fetch` promise resolved with a response and metrics are
enabled. -/
def maybeSample (cfg : APIConfig) (retryCount : Nat)
    (requestId : String) (fr : FetchResult) (tr : Trace) : Trace :=
  match fr with
  | .response status _ =>
    if cfg.enableMetrics then
      { tr with
        samples := collectMetrics tr.samples
          ⟨status, isOkStatus status, retryCount, requestId⟩ }
    else tr
  | _ => tr

/-- Classification of a settled attempt by the `catch` block. -/
inductive TryOutcome where
  | success
  | aborted
  | caught (err : CaughtError)
deriving DecidableEq, Repr

/-- The body of the `try` block after `fetch` settles: a response
with `ok` status and a structurally valid body returns; an `ok`
response with an invalid body throws `APIError 500 INVALID_RESPONSE`;
a non-`ok` response throws `APIError status`; an `AbortError`
reaches the catch as an abort; any other rejection is a generic
error.  (`parseErrorResponse` reads a server-supplied error code
when present; the code string is abstracted to the `HTTP_ERROR`
default, which no claim inspects.) -/
def classifyTry : FetchResult → TryOutcome
  | .response status valid =>
    if isOkStatus status then
      if valid then .success
      else .caught (.apiError 500 "INVALID_RESPONSE")
    else .caught (.apiError status "HTTP_ERROR")
  | .abortError => .aborted
  | .genericError => .caught .generic

/-- The retry loop of `request` (`for attempt = 0..retryAttempts`).
`fuel` counts the remaining loop iterations (initially
`retryAttempts + 1`), `time` is the absolute time at which the
current attempt's `fetch` fires, and `retryCount` mirrors the
mutable variable of the source (updated to `attempt` in the catch
block, read by `collectMetrics`). -/
def requestLoop (cfg : APIConfig) (requestId traceId : String)
    (transport : Nat → TransportBehavior) (deadline : Nat) :
    Nat → Nat → Nat → Nat → Option CaughtError → Trace →
    RequestResult × Trace
  | 0, _, _, _, lastError, tr => (finalize lastError, tr)
  | fuel + 1, attempt, time, retryCount, _lastError, tr =>
    let b := transport attempt
    let fr := (attemptFetch deadline time b).1
    let tEnd := (attemptFetch deadline time b).2
    let tr2 : Trace :=
      maybeSample cfg retryCount requestId fr
        (logAttempt cfg requestId traceId ⟨time, b.duration, fr⟩ tr)
    match classifyTry fr with
    | .success => (.ok, tr2)
    | .aborted => (.timeoutError cfg.timeoutMs, tr2)
    | .caught err =>
      if caughtNoRetry err then (finalize (some err), tr2)
      else if attempt < cfg.retryAttempts then
        let delay := cfg.retryDelayMs * 2 ^ attempt
        requestLoop cfg requestId traceId transport deadline
          fuel (attempt + 1) (tEnd + delay) attempt (some err)
          { tr2 with delays := tr2.delays ++ [delay] }
      else
        requestLoop cfg requestId traceId transport deadline
          fuel (attempt + 1) tEnd attempt (some err) tr2

/-- The abort deadline of one logical call: the per-request timeout
timer armed when `request` starts, possibly shortened by an external
`cancelAllRequests()` at time `cancelAt`.  A single deadline covers
every attempt of the call. -/
def effectiveDeadline (cfg : APIConfig) (cancelAt : Option Nat) : Nat :=
  match cancelAt with
  | none => cfg.timeoutMs
  | some c => min c cfg.timeoutMs

/-- One logical `request` call.  `requestId` and `traceId` are the
values produced by the single `generateRequestId()` /
`generateTraceId()` calls made before the retry loop. -/
def request (cfg : APIConfig) (requestId traceId : String)
    (cancelAt : Option Nat) (transport : Nat → TransportBehavior) :
    RequestResult × Trace :=
  requestLoop cfg requestId traceId transport
    (effectiveDeadline cfg cancelAt)
    (cfg.retryAttempts + 1) 0 0 0 none Trace.empty

/-- Whether an attempt's `fetch` resolved with an HTTP response
(these are exactly the attempts at which `collectMetrics` runs). -/
def isResponseLog (p : AttemptLog) : Bool :=
  match p.result with
  | .response _ _ => true
  | _ => false

/-- Number of attempts of a run on which the transport returned an
HTTP response. -/
def countResponses (attempts : List AttemptLog) : Nat :=
  (attempts.filter isResponseLog).length

/-- Scenario configuration: `retryAttempts = 2`,
`retryBaseDelayMs = 100` (the specification's end-to-end retry
scenario). -/
def cfgSmall : APIConfig :=
  { timeoutMs := 10000, retryAttempts := 2, retryDelayMs := 100
    enableMetrics := true, enableTracing := true }

/-- Scenario configuration with a tight 100 ms timeout and one
retry. -/
def cfgTight : APIConfig :=
  { timeoutMs := 100, retryAttempts := 1, retryDelayMs := 50
    enableMetrics := true, enableTracing := true }

/-- Transport that fails once with an exception, then succeeds. -/
def transientThenOk : Nat → TransportBehavior := fun n =>
  if n = 0 then .raise 1 else .respond 200 true 1

/-- Transport whose first attempt fails fast and whose second
attempt would answer after 80 ms. -/
def slowRetryTransport : Nat → TransportBehavior := fun n =>
  if n = 0 then .raise 10 else .respond 200 true 80

/-- Transport that fails twice with transport-level exceptions, then
succeeds. -/
def exceptionTwiceThenOk : Nat → TransportBehavior := fun n =>
  if n ≤ 1 then .raise 1 else .respond 200 true 1

/-- Transport that fails twice with HTTP 500 responses, then
succeeds. -/
def httpErrorTwiceThenOk : Nat → TransportBehavior := fun n =>
  if n ≤ 1 then .respond 500 false 1 else .respond 200 true 1

/-- Transport that answers successfully after 100 ms. -/
def slowTransport : Nat → TransportBehavior := fun _ => .respond 200 true 100

/-- Transport that always answers HTTP 401. -/
def unauthorizedTransport : Nat → TransportBehavior := fun _ => .respond 401 true 1

end ApiClient

namespace WsClient

/-- Model of `WebSocketConfig` (`websocket-client.ts`); the `url` and
`protocols` strings play no role in the control flow and are
omitted. -/
structure WebSocketConfig where
  reconnectAttempts : Nat
  reconnectDelay : Nat
  heartbeatInterval : Nat
  messageTimeout : Nat
  enableMetrics : Bool
deriving DecidableEq, Repr

/-- The defaults applied in the constructor. -/
def defaultWSConfig : WebSocketConfig :=
  { reconnectAttempts := 10
    reconnectDelay := 1000
    heartbeatInterval := 30000
    messageTimeout := 5000
    enableMetrics := true }

/-- Connection states of the event-stream client
(`ConnectionState`). -/
inductive ConnectionState where
  | connecting | connected | disconnected | reconnecting | failed
deriving DecidableEq, Repr

/-- The mutable counters of `WebSocketMetrics` (uptime and
averageLatency are derived on read in `getMetrics`). -/
structure WSMetrics where
  connectionTime : Nat
  messagesReceived : Nat
  messagesSent : Nat
  reconnectCount : Nat
  lastMessageTime : Int
deriving DecidableEq, Repr

/-- The `data` field of an inbound frame, restricted to the one
property the cache bridge reads (`data?.violationId`). -/
structure WSData where
  violationId : Option String
deriving DecidableEq, Repr

/-- A JSON-parsed inbound frame.  A field is `some s` when it is
present with a string value and `none` otherwise, matching the
`typeof x === 'string'` checks of `isValidMessage`; `tsMillis` is
the value `new Date(message.timestamp).getTime()` would produce. -/
structure RawMessage where
  type : Option String
  timestamp : Option String
  requestId : Option String
  tsMillis : Int
  data : Option WSData
deriving DecidableEq, Repr

/-- Model of `isValidMessage`: `type`, `timestamp` and `requestId`
must all be present as strings. -/
def isValidMessage (m : RawMessage) : Bool :=
  m.type.isSome && m.timestamp.isSome && m.requestId.isSome

/-- The full client state (`StrathonWebSocketClient`'s private
fields).  Outbound payloads are abstracted to opaque identifiers,
with `0` standing for the `heartbeat_ack` frame; `ws` records
whether a socket object is held; `reconnectTimer` holds the delay of
the pending reconnect timer, when one is scheduled. -/
structure ClientState where
  ws : Bool
  state : ConnectionState
  reconnectAttempts : Nat
  reconnectTimer : Option Nat
  heartbeatTimer : Bool
  messageQueue : List Nat
  metrics : WSMetrics
  hasQueryClient : Bool
  latencyMeasurements : List Int
  connectionStartTime : Int
deriving DecidableEq, Repr

/-- Externally observable effects of the client's handlers. -/
inductive WSEffect where
  | parseErrorLog
  | warnInvalid
  | invalidateQueries (key : List String)
  | setQueryData (key : List String) (d : WSData)
  | onMessageCallback
  | wsSend
  | onDisconnectCallback
  | onReconnectCallback (attempt : Nat)
  | scheduleReconnect (delay : Nat)
deriving DecidableEq, Repr

/-- Model of `send(message)`: queue and report `false` while not
connected, else stamp and transmit (the stamped
`requestId`/`timestamp` do not feed back into the client state and
are not modelled). -/
def send (st : ClientState) (msg : Nat) :
    ClientState × Bool × List WSEffect :=
  if st.state ≠ ConnectionState.connected ∨ st.ws = false then
    ({ st with messageQueue := st.messageQueue ++ [msg] }, false, [])
  else
    ({ st with metrics :=
        { st.metrics with messagesSent := st.metrics.messagesSent + 1 } },
      true, [.wsSend])

/-- Model of `processMessage`, the cache bridge.  Dispatch on
`message.type`; the `security_alert` arm invalidates the violations
key and, when `data.violationId` is present, overwrites the item
entry; the `heartbeat` arm answers with a `heartbeat_ack` through
`send`. -/
def processMessage (st : ClientState) (m : RawMessage) :
    ClientState × List WSEffect :=
  if st.hasQueryClient = false then (st, [])
  else
    match m.type with
    | some "metrics_update" =>
      (st, [.invalidateQueries ["pulse", "metrics"]])
    | some "security_alert" =>
      let base : List WSEffect := [.invalidateQueries ["pulse", "violations"]]
      match m.data with
      | some d =>
        match d.violationId with
        | some v =>
          (st, base ++ [.setQueryData ["pulse", "violations", v] d])
        | none => (st, base)
      | none => (st, base)
    | some "service_status" =>
      (st, [.invalidateQueries ["pulse", "services"]])
    | some "circuit_breaker_state" =>
      (st, [.invalidateQueries ["pulse", "circuitBreakers"]])
    | some "heartbeat" =>
      let r := send st 0
      (r.1, r.2.2)
    | _ => (st, [])

/-- Model of `recordLatency`: push the sample, keep the last 100. -/
def recordLatency (l : List Int) (x : Int) : List Int :=
  let l' := l ++ [x]
  if 100 < l'.length then l'.drop (l'.length - 100) else l'

/-- The latency and receipt-counter updates `handleMessage` performs
on a structurally valid message: record a latency sample when the
timestamp string is truthy (a present but empty string is falsy in
the source's `if (message.timestamp)` test), then bump
`messagesReceived` and `lastMessageTime`. -/
def recordReceive (st : ClientState) (receiveTime : Int)
    (m : RawMessage) : ClientState :=
  let st1 : ClientState :=
    match m.timestamp with
    | some s =>
      if s ≠ "" then
        { st with latencyMeasurements :=
            recordLatency st.latencyMeasurements (receiveTime - m.tsMillis) }
      else st
    | none => st
  { st1 with metrics :=
      { st1.metrics with
        messagesReceived := st1.metrics.messagesReceived + 1
        lastMessageTime := receiveTime } }

/-- Model of `handleMessage`: parse (a `none` input models a JSON
parse failure), validate, record latency and receipt counters, run
the cache bridge, then invoke the user callback. -/
def handleMessage (st : ClientState) (receiveTime : Int)
    (parsed : Option RawMessage) : ClientState × List WSEffect :=
  match parsed with
  | none => (st, [.parseErrorLog])
  | some m =>
    if isValidMessage m = false then (st, [.warnInvalid])
    else
      let r := processMessage (recordReceive st receiveTime m) m
      (r.1, r.2 ++ [.onMessageCallback])

/-- Model of `attemptReconnect`: no-op while already reconnecting;
otherwise enter `reconnecting`, bump the counters and schedule one
timer with delay `reconnectDelay * 2 ^ min (attempts - 1) 5`
(attempts counted after the increment, as in the source). -/
def attemptReconnect (cfg : WebSocketConfig) (st : ClientState) :
    ClientState × List WSEffect :=
  if st.state = ConnectionState.reconnecting then (st, [])
  else
    let st1 : ClientState :=
      { st with
        state := ConnectionState.reconnecting
        reconnectAttempts := st.reconnectAttempts + 1
        metrics :=
          { st.metrics with reconnectCount := st.metrics.reconnectCount + 1 } }
    let delay := cfg.reconnectDelay * 2 ^ min (st1.reconnectAttempts - 1) 5
    ({ st1 with reconnectTimer := some delay },
      [.onReconnectCallback st1.reconnectAttempts, .scheduleReconnect delay])

/-- Model of `handleClose`: enter `disconnected`, stop the
heartbeat, fire the disconnect callback, and reconnect unless the
close was clean (code 1000) or the attempt budget is exhausted. -/
def handleClose (cfg : WebSocketConfig) (st : ClientState)
    (closeCode : Nat) : ClientState × List WSEffect :=
  let st1 : ClientState :=
    { st with state := ConnectionState.disconnected, heartbeatTimer := false }
  if closeCode ≠ 1000 ∧ st1.reconnectAttempts < cfg.reconnectAttempts then
    let r := attemptReconnect cfg st1
    (r.1, .onDisconnectCallback :: r.2)
  else (st1, [.onDisconnectCallback])

/-- The `.catch` handler of the reconnect timer's `connect()` call:
enter the terminal `failed` state once the attempt budget is
reached, otherwise schedule the next cycle. -/
def reconnectFailed (cfg : WebSocketConfig) (st : ClientState) :
    ClientState × List WSEffect :=
  if cfg.reconnectAttempts ≤ st.reconnectAttempts then
    ({ st with state := ConnectionState.failed }, [])
  else attemptReconnect cfg st

/-- How the synchronous part of `connect()` settles. -/
inductive ConnectEffect where
  | resolvedImmediately
  | openedConnection
deriving DecidableEq, Repr

/-- The synchronous prefix of `connect(queryClient)`: when a socket
is held and the state is `connected`, resolve at once without
touching anything; otherwise store the cache handle, enter
`connecting` and open a new transport connection (whose async
outcome is delivered through the `handleClose`/`handleMessage`
handlers above). -/
def connect (st : ClientState) (qc : Bool) (now : Int) :
    ClientState × ConnectEffect :=
  if st.ws = true ∧ st.state = ConnectionState.connected then
    (st, .resolvedImmediately)
  else
    ({ st with
        hasQueryClient := qc
        state := ConnectionState.connecting
        connectionStartTime := now
        ws := true },
      .openedConnection)

/-- Number of reconnect timers scheduled among a list of effects. -/
def countScheduled (effs : List WSEffect) : Nat :=
  (effs.filter fun e =>
    match e with
    | .scheduleReconnect _ => true
    | _ => false).length

/-- The client state produced by the constructor's field
initialisers. -/
def initState : ClientState :=
  { ws := false
    state := .disconnected
    reconnectAttempts := 0
    reconnectTimer := none
    heartbeatTimer := false
    messageQueue := []
    metrics := ⟨0, 0, 0, 0, 0⟩
    hasQueryClient := false
    latencyMeasurements := []
    connectionStartTime := 0 }

/-- A frame whose `type` field is missing. -/
def missingKindMsg : RawMessage :=
  { type := none
    timestamp := some "2024-01-01T00:00:00Z"
    requestId := some "req-1"
    tsMillis := 0
    data := none }

/-- A structurally valid `security_alert` frame carrying
`data.violationId = "v-1"`. -/
def securityAlertMsg : RawMessage :=
  { type := some "security_alert"
    timestamp := some "2024-01-01T00:00:00Z"
    requestId := some "req-2"
    tsMillis := 0
    data := some ⟨some "v-1"⟩ }

/-- A client state with the reconnect-attempt budget of the default
configuration exhausted. -/
def exhaustedState : ClientState :=
  { initState with reconnectAttempts := 10 }

/-- A client state in the middle of a reconnect cycle, right after
the timer fired and `connect()` set the state to `connecting`. -/
def midReconnectState : ClientState :=
  { initState with state := ConnectionState.connecting, reconnectAttempts := 4 }

end WsClient
end DesignSystem

namespace DesignSystem
namespace ApiClient

/-- Appending a sample leaves the attempt log unchanged. -/
theorem maybeSample_attempts (cfg : APIConfig) (rc : Nat) (rid : String)
    (fr : FetchResult) (tr : Trace) :
    (maybeSample cfg rc rid fr tr).attempts = tr.attempts := by
  unfold maybeSample
  cases fr <;> simp <;> split <;> rfl

/-- Appending a sample leaves the sent correlation ids unchanged. -/
theorem maybeSample_sentCorrelationIds (cfg : APIConfig) (rc : Nat) (rid : String)
    (fr : FetchResult) (tr : Trace) :
    (maybeSample cfg rc rid fr tr).sentCorrelationIds = tr.sentCorrelationIds := by
  unfold maybeSample
  cases fr <;> simp <;> split <;> rfl

/-- Appending a sample leaves the sent trace ids unchanged. -/
theorem maybeSample_sentTraceIds (cfg : APIConfig) (rc : Nat) (rid : String)
    (fr : FetchResult) (tr : Trace) :
    (maybeSample cfg rc rid fr tr).sentTraceIds = tr.sentTraceIds := by
  unfold maybeSample
  cases fr <;> simp <;> split <;> rfl

/-- Appending a sample leaves the recorded delays unchanged. -/
theorem maybeSample_delays (cfg : APIConfig) (rc : Nat) (rid : String)
    (fr : FetchResult) (tr : Trace) :
    (maybeSample cfg rc rid fr tr).delays = tr.delays := by
  unfold maybeSample
  cases fr <;> simp <;> split <;> rfl

/-- Logging an attempt leaves the recorded delays unchanged. -/
theorem logAttempt_delays (cfg : APIConfig) (rid tid : String)
    (e : AttemptLog) (tr : Trace) :
    (logAttempt cfg rid tid e tr).delays = tr.delays := rfl

/-- Every iteration of the retry loop sends the same single
correlation id and (when tracing) the same single trace id; the loop
appends exactly one of each per attempt. -/
theorem requestLoop_ids (cfg : APIConfig) (rid tid : String)
    (t : Nat → TransportBehavior) (dl : Nat) :
    ∀ fuel attempt time rc le tr,
      ∃ k,
        (requestLoop cfg rid tid t dl fuel attempt time rc le tr).2.attempts.length
          = tr.attempts.length + k ∧
        (requestLoop cfg rid tid t dl fuel attempt time rc le tr).2.sentCorrelationIds
          = tr.sentCorrelationIds ++ List.replicate k rid ∧
        (requestLoop cfg rid tid t dl fuel attempt time rc le tr).2.sentTraceIds
          = tr.sentTraceIds ++ (if cfg.enableTracing then List.replicate k tid else []) := by
  intro fuel
  induction fuel with
  | zero =>
    intro attempt time rc le tr
    refine ⟨0, ?_⟩
    simp [requestLoop]
  | succ n ih =>
    intro attempt time rc le tr
    rw [requestLoop]
    cases hc : classifyTry (attemptFetch dl time (t attempt)).1 with
    | success =>
      refine ⟨1, ?_⟩
      simp [hc, maybeSample_attempts, maybeSample_sentCorrelationIds,
        maybeSample_sentTraceIds, logAttempt]
    | aborted =>
      refine ⟨1, ?_⟩
      simp [hc, maybeSample_attempts, maybeSample_sentCorrelationIds,
        maybeSample_sentTraceIds, logAttempt]
    | caught err =>
      simp only [hc]
      by_cases hnr : caughtNoRetry err = true
      · refine ⟨1, ?_⟩
        simp [hnr, maybeSample_attempts, maybeSample_sentCorrelationIds,
          maybeSample_sentTraceIds, logAttempt]
      · simp only [hnr]
        by_cases hlt : attempt < cfg.retryAttempts
        · simp only [hlt, if_true, if_false, Bool.false_eq_true]
          obtain ⟨k, h1, h2, h3⟩ := ih (attempt + 1)
            ((attemptFetch dl time (t attempt)).2 + cfg.retryDelayMs * 2 ^ attempt)
            attempt (some err)
            { maybeSample cfg rc rid (attemptFetch dl time (t attempt)).1
                (logAttempt cfg rid tid ⟨time, (t attempt).duration,
                  (attemptFetch dl time (t attempt)).1⟩ tr) with
              delays := (maybeSample cfg rc rid (attemptFetch dl time (t attempt)).1
                (logAttempt cfg rid tid ⟨time, (t attempt).duration,
                  (attemptFetch dl time (t attempt)).1⟩ tr)).delays ++
                [cfg.retryDelayMs * 2 ^ attempt] }
          refine ⟨k + 1, ?_, ?_, ?_⟩
          · rw [h1]
            simp [maybeSample_attempts, logAttempt]
            omega
          · rw [h2]
            simp [maybeSample_sentCorrelationIds, logAttempt, List.replicate_succ]
          · rw [h3]
            simp [maybeSample_sentTraceIds, logAttempt]
            split <;> simp [List.replicate_succ]
        · simp only [hlt, if_false, Bool.false_eq_true]
          obtain ⟨k, h1, h2, h3⟩ := ih (attempt + 1)
            (attemptFetch dl time (t attempt)).2 attempt (some err)
            (maybeSample cfg rc rid (attemptFetch dl time (t attempt)).1
              (logAttempt cfg rid tid ⟨time, (t attempt).duration,
                (attemptFetch dl time (t attempt)).1⟩ tr))
          refine ⟨k + 1, ?_, ?_, ?_⟩
          · rw [h1]
            simp [maybeSample_attempts, logAttempt]
            omega
          · rw [h2]
            simp [maybeSample_sentCorrelationIds, logAttempt, List.replicate_succ]
          · rw [h3]
            simp [maybeSample_sentTraceIds, logAttempt]
            split <;> simp [List.replicate_succ]

/-- Length of the capped metric buffer after a push. -/
theorem collectMetrics_length (s : List MetricSample) (m : MetricSample) :
    (collectMetrics s m).length = min (s.length + 1) 1000 := by
  simp only [collectMetrics]
  split <;> simp_all <;> omega

/-- An attempt is classified as aborted exactly when the `fetch`
promise rejected with `AbortError`. -/
theorem classifyTry_aborted_iff (fr : FetchResult) :
    classifyTry fr = TryOutcome.aborted ↔ fr = FetchResult.abortError := by
  cases fr <;> simp [classifyTry]
  split_ifs <;> simp

/-- The post-loop finalisation never produces a `TimeoutError`. -/
theorem finalize_ne_timeout (le : Option CaughtError) (b : Nat) :
    finalize le ≠ RequestResult.timeoutError b := by
  unfold finalize
  rcases le with _ | e
  · simp
  · cases e <;> simp

/-- A `fetch` is aborted exactly when the absolute deadline falls at
or before its start, or strictly inside its transport duration. -/
theorem attemptFetch_abort_iff (dl s : Nat) (b : TransportBehavior) :
    (attemptFetch dl s b).1 = FetchResult.abortError ↔
      (dl ≤ s ∨ dl < s + b.duration) := by
  cases b <;> simp [attemptFetch, TransportBehavior.duration] <;>
    split_ifs <;> simp_all

/-- Every attempt the loop logs is marked aborted exactly when the
absolute deadline cut it off. -/
theorem requestLoop_aligned (cfg : APIConfig) (rid tid : String)
    (t : Nat → TransportBehavior) (dl : Nat) :
    ∀ fuel attempt time rc le tr,
      (∀ p ∈ tr.attempts,
        (p.result = FetchResult.abortError ↔ dl ≤ p.start ∨ dl < p.start + p.dur)) →
      ∀ p ∈ (requestLoop cfg rid tid t dl fuel attempt time rc le tr).2.attempts,
        (p.result = FetchResult.abortError ↔ dl ≤ p.start ∨ dl < p.start + p.dur) := by
  intro fuel
  induction fuel with
  | zero =>
    intro attempt time rc le tr h
    simpa [requestLoop] using h
  | succ n ih =>
    intro attempt time rc le tr h
    have hstep : ∀ p ∈ tr.attempts ++
        [(⟨time, (t attempt).duration, (attemptFetch dl time (t attempt)).1⟩ : AttemptLog)],
        (p.result = FetchResult.abortError ↔ dl ≤ p.start ∨ dl < p.start + p.dur) := by
      intro p hp
      rcases List.mem_append.mp hp with hp | hp
      · exact h p hp
      · rcases List.mem_singleton.mp hp with rfl
        simpa using attemptFetch_abort_iff dl time (t attempt)
    rw [requestLoop]
    cases hc : classifyTry (attemptFetch dl time (t attempt)).1 with
    | success =>
      simp only [hc]
      intro p hp
      apply hstep
      simpa [maybeSample_attempts, logAttempt] using hp
    | aborted =>
      simp only [hc]
      intro p hp
      apply hstep
      simpa [maybeSample_attempts, logAttempt] using hp
    | caught err =>
      simp only [hc]
      by_cases hnr : caughtNoRetry err = true
      · simp only [hnr, if_true]
        intro p hp
        apply hstep
        simpa [maybeSample_attempts, logAttempt] using hp
      · simp only [hnr, Bool.false_eq_true, if_false]
        by_cases hlt : attempt < cfg.retryAttempts
        · simp only [hlt, if_true]
          apply ih
          intro p hp
          apply hstep
          simpa [maybeSample_attempts, logAttempt] using hp
        · simp only [hlt, if_false]
          apply ih
          intro p hp
          apply hstep
          simpa [maybeSample_attempts, logAttempt] using hp

/-- The loop surfaces `TimeoutError` exactly when one of its logged
attempts was aborted. -/
theorem requestLoop_timeout_iff (cfg : APIConfig) (rid tid : String)
    (t : Nat → TransportBehavior) (dl : Nat) :
    ∀ fuel attempt time rc le tr,
      (∀ p ∈ tr.attempts, p.result ≠ FetchResult.abortError) →
      ((requestLoop cfg rid tid t dl fuel attempt time rc le tr).1 =
          RequestResult.timeoutError cfg.timeoutMs ↔
        ∃ p ∈ (requestLoop cfg rid tid t dl fuel attempt time rc le tr).2.attempts,
          p.result = FetchResult.abortError) := by
  intro fuel
  induction fuel with
  | zero =>
    intro attempt time rc le tr h
    simp only [requestLoop]
    constructor
    · intro hx
      exact absurd hx (finalize_ne_timeout le cfg.timeoutMs)
    · rintro ⟨p, hp, hres⟩
      exact absurd hres (h p hp)
  | succ n ih =>
    intro attempt time rc le tr h
    rw [requestLoop]
    cases hc : classifyTry (attemptFetch dl time (t attempt)).1 with
    | success =>
      have hfr : (attemptFetch dl time (t attempt)).1 ≠ FetchResult.abortError := by
        intro hx
        rw [hx] at hc
        simp [classifyTry] at hc
      simp only [hc]
      constructor
      · intro hx
        exact absurd hx (by simp)
      · rintro ⟨p, hp, hres⟩
        rw [maybeSample_attempts, logAttempt] at hp
        rcases List.mem_append.mp hp with hp | hp
        · exact absurd hres (h p hp)
        · rcases List.mem_singleton.mp hp with rfl
          exact absurd hres hfr
    | aborted =>
      have hfr : (attemptFetch dl time (t attempt)).1 = FetchResult.abortError :=
        (classifyTry_aborted_iff _).mp hc
      simp only [hc]
      constructor
      · intro _
        refine ⟨⟨time, (t attempt).duration, (attemptFetch dl time (t attempt)).1⟩, ?_, hfr⟩
        rw [maybeSample_attempts, logAttempt]
        simp
      · intro _
        trivial
    | caught err =>
      have hfr : (attemptFetch dl time (t attempt)).1 ≠ FetchResult.abortError := by
        intro hx
        rw [hx] at hc
        simp [classifyTry] at hc
      have hstep : ∀ p ∈ tr.attempts ++
          [(⟨time, (t attempt).duration, (attemptFetch dl time (t attempt)).1⟩ : AttemptLog)],
          p.result ≠ FetchResult.abortError := by
        intro p hp
        rcases List.mem_append.mp hp with hp | hp
        · exact h p hp
        · rcases List.mem_singleton.mp hp with rfl
          exact hfr
      simp only [hc]
      by_cases hnr : caughtNoRetry err = true
      · simp only [hnr, if_true]
        constructor
        · intro hx
          exact absurd hx (finalize_ne_timeout _ _)
        · rintro ⟨p, hp, hres⟩
          rw [maybeSample_attempts, logAttempt] at hp
          exact absurd hres (hstep p hp)
      · simp only [hnr, Bool.false_eq_true, if_false]
        by_cases hlt : attempt < cfg.retryAttempts
        · simp only [hlt, if_true]
          apply ih
          intro p hp
          apply hstep
          simpa [maybeSample_attempts, logAttempt] using hp
        · simp only [hlt, if_false]
          apply ih
          intro p hp
          apply hstep
          simpa [maybeSample_attempts, logAttempt] using hp

/-- Count of response attempts after appending one log entry. -/
theorem countResponses_append (l : List AttemptLog) (e : AttemptLog) :
    countResponses (l ++ [e]) =
      countResponses l + (if isResponseLog e then 1 else 0) := by
  simp only [countResponses, List.filter_append, List.length_append]
  by_cases h : isResponseLog e = true <;> simp [List.filter_cons, h]

/-- One loop iteration preserves the sample-count invariant: the
buffer holds `min (number of response attempts) 1000` samples. -/
theorem maybeSample_samples_invariant (cfg : APIConfig) (rc : Nat)
    (rid tid : String) (time d : Nat) (fr : FetchResult) (tr : Trace)
    (hm : cfg.enableMetrics = true)
    (h : tr.samples.length = min (countResponses tr.attempts) 1000) :
    (maybeSample cfg rc rid fr
        (logAttempt cfg rid tid ⟨time, d, fr⟩ tr)).samples.length =
      min (countResponses
        (maybeSample cfg rc rid fr
          (logAttempt cfg rid tid ⟨time, d, fr⟩ tr)).attempts) 1000 := by
  rw [maybeSample_attempts]
  cases fr with
  | response status valid =>
    simp only [maybeSample, hm, if_true, logAttempt, countResponses_append,
      collectMetrics_length]
    simp only [isResponseLog]
    simp
    omega
  | abortError =>
    simp only [maybeSample, logAttempt, countResponses_append]
    simp only [isResponseLog]
    simpa using h
  | genericError =>
    simp only [maybeSample, logAttempt, countResponses_append]
    simp only [isResponseLog]
    simpa using h

/-- With metrics enabled, the loop maintains the sample-count
invariant. -/
theorem requestLoop_samples_on (cfg : APIConfig) (rid tid : String)
    (t : Nat → TransportBehavior) (dl : Nat)
    (hm : cfg.enableMetrics = true) :
    ∀ fuel attempt time rc le tr,
      tr.samples.length = min (countResponses tr.attempts) 1000 →
      (requestLoop cfg rid tid t dl fuel attempt time rc le tr).2.samples.length =
        min (countResponses
          (requestLoop cfg rid tid t dl fuel attempt time rc le tr).2.attempts) 1000 := by
  intro fuel
  induction fuel with
  | zero =>
    intro attempt time rc le tr h
    simpa [requestLoop] using h
  | succ n ih =>
    intro attempt time rc le tr h
    have hstep := maybeSample_samples_invariant cfg rc rid tid time
      (t attempt).duration (attemptFetch dl time (t attempt)).1 tr hm h
    rw [requestLoop]
    cases hc : classifyTry (attemptFetch dl time (t attempt)).1 with
    | success => simpa only [hc] using hstep
    | aborted => simpa only [hc] using hstep
    | caught err =>
      simp only [hc]
      by_cases hnr : caughtNoRetry err = true
      · simpa only [hnr, if_true] using hstep
      · simp only [hnr, Bool.false_eq_true, if_false]
        by_cases hlt : attempt < cfg.retryAttempts
        · simp only [hlt, if_true]
          exact ih _ _ _ _ _ hstep
        · simp only [hlt, if_false]
          exact ih _ _ _ _ _ hstep

/-- With metrics disabled, the loop records no samples. -/
theorem requestLoop_samples_off (cfg : APIConfig) (rid tid : String)
    (t : Nat → TransportBehavior) (dl : Nat)
    (hm : cfg.enableMetrics = false) :
    ∀ fuel attempt time rc le tr,
      (requestLoop cfg rid tid t dl fuel attempt time rc le tr).2.samples =
        tr.samples := by
  intro fuel
  induction fuel with
  | zero =>
    intro attempt time rc le tr
    simp [requestLoop]
  | succ n ih =>
    intro attempt time rc le tr
    have hstep : (maybeSample cfg rc rid (attemptFetch dl time (t attempt)).1
        (logAttempt cfg rid tid ⟨time, (t attempt).duration,
          (attemptFetch dl time (t attempt)).1⟩ tr)).samples = tr.samples := by
      cases hfr : (attemptFetch dl time (t attempt)).1 <;>
        simp [maybeSample, hm, logAttempt]
    rw [requestLoop]
    cases hc : classifyTry (attemptFetch dl time (t attempt)).1 with
    | success => simpa only [hc] using hstep
    | aborted => simpa only [hc] using hstep
    | caught err =>
      simp only [hc]
      by_cases hnr : caughtNoRetry err = true
      · simpa only [hnr, if_true] using hstep
      · simp only [hnr, Bool.false_eq_true, if_false]
        by_cases hlt : attempt < cfg.retryAttempts
        · simp only [hlt, if_true]
          rw [ih]
          exact hstep
        · simp only [hlt, if_false]
          rw [ih]
          exact hstep

/-- Within the loop's reachable configurations, the delays slept are
exactly `retryDelayMs * 2 ^ n` for the consecutive attempt indices
`n` at which a retry was scheduled. -/
theorem requestLoop_delays (cfg : APIConfig) (rid tid : String)
    (t : Nat → TransportBehavior) (dl : Nat) :
    ∀ fuel attempt time rc le tr,
      fuel + attempt ≤ cfg.retryAttempts + 1 →
      ∃ k,
        (requestLoop cfg rid tid t dl fuel attempt time rc le tr).2.delays =
          tr.delays ++
            (List.range' attempt k).map (fun n => cfg.retryDelayMs * 2 ^ n) := by
  intro fuel
  induction fuel with
  | zero =>
    intro attempt time rc le tr _
    exact ⟨0, by simp [requestLoop]⟩
  | succ n ih =>
    intro attempt time rc le tr hfa
    have hdel : (maybeSample cfg rc rid (attemptFetch dl time (t attempt)).1
        (logAttempt cfg rid tid ⟨time, (t attempt).duration,
          (attemptFetch dl time (t attempt)).1⟩ tr)).delays = tr.delays := by
      rw [maybeSample_delays, logAttempt_delays]
    rw [requestLoop]
    cases hc : classifyTry (attemptFetch dl time (t attempt)).1 with
    | success =>
      refine ⟨0, ?_⟩
      simp only [hc]
      simpa using hdel
    | aborted =>
      refine ⟨0, ?_⟩
      simp only [hc]
      simpa using hdel
    | caught err =>
      simp only [hc]
      by_cases hnr : caughtNoRetry err = true
      · refine ⟨0, ?_⟩
        simp only [hnr, if_true]
        simpa using hdel
      · simp only [hnr, Bool.false_eq_true, if_false]
        by_cases hlt : attempt < cfg.retryAttempts
        · simp only [hlt, if_true]
          obtain ⟨k, hk⟩ := ih (attempt + 1)
            ((attemptFetch dl time (t attempt)).2 + cfg.retryDelayMs * 2 ^ attempt)
            attempt (some err)
            { maybeSample cfg rc rid (attemptFetch dl time (t attempt)).1
                (logAttempt cfg rid tid ⟨time, (t attempt).duration,
                  (attemptFetch dl time (t attempt)).1⟩ tr) with
              delays := (maybeSample cfg rc rid (attemptFetch dl time (t attempt)).1
                (logAttempt cfg rid tid ⟨time, (t attempt).duration,
                  (attemptFetch dl time (t attempt)).1⟩ tr)).delays ++
                [cfg.retryDelayMs * 2 ^ attempt] }
            (by omega)
          refine ⟨k + 1, ?_⟩
          rw [hk]
          simp only [hdel]
          rw [List.range'_succ]
          simp
        · have hn : n = 0 := by omega
          subst hn
          simp only [hlt, if_false]
          refine ⟨0, ?_⟩
          rw [requestLoop]
          simpa using hdel

/-- The loop makes at most `fuel` further transport invocations. -/
theorem requestLoop_length_le (cfg : APIConfig) (rid tid : String)
    (t : Nat → TransportBehavior) (dl : Nat) :
    ∀ fuel attempt time rc le tr,
      (requestLoop cfg rid tid t dl fuel attempt time rc le tr).2.attempts.length ≤
        tr.attempts.length + fuel := by
  intro fuel
  induction fuel with
  | zero =>
    intro attempt time rc le tr
    simp [requestLoop]
  | succ n ih =>
    intro attempt time rc le tr
    have hlen : (maybeSample cfg rc rid (attemptFetch dl time (t attempt)).1
        (logAttempt cfg rid tid ⟨time, (t attempt).duration,
          (attemptFetch dl time (t attempt)).1⟩ tr)).attempts.length =
        tr.attempts.length + 1 := by
      rw [maybeSample_attempts]
      simp [logAttempt]
    rw [requestLoop]
    cases hc : classifyTry (attemptFetch dl time (t attempt)).1 with
    | success =>
      simp only [hc]
      omega
    | aborted =>
      simp only [hc]
      omega
    | caught err =>
      simp only [hc]
      by_cases hnr : caughtNoRetry err = true
      · simp only [hnr, if_true]
        omega
      · simp only [hnr, Bool.false_eq_true, if_false]
        by_cases hlt : attempt < cfg.retryAttempts
        · simp only [hlt, if_true]
          refine le_trans (ih _ _ _ _ _) ?_
          simp only [hlen]
          omega
        · simp only [hlt, if_false]
          refine le_trans (ih _ _ _ _ _) ?_
          simp only [hlen]
          omega

end ApiClient
end DesignSystem

namespace DesignSystem
namespace ApiClient

/-- C1, counterexample: in a run of `request` with one transport
failure followed by a success — two transport attempts of the same
logical call — both attempts carry the same correlation id `req_1`
and the same trace id `trace_1`.  This refutes the claim that every
attempt (including each retry) carries a fresh correlation id and a
fresh trace id distinct from every other attempt's. -/
theorem claim1_counterexample :
    (request cfgSmall "req_1" "trace_1" none transientThenOk).2.attempts.length = 2 ∧
    (request cfgSmall "req_1" "trace_1" none transientThenOk).2.sentCorrelationIds =
      ["req_1", "req_1"] ∧
    (request cfgSmall "req_1" "trace_1" none transientThenOk).2.sentTraceIds =
      ["trace_1", "trace_1"] := by
  refine ⟨rfl, rfl, rfl⟩

/-- C1, amended: the correlation id and trace id are generated once
per logical call, before the retry loop, and every transport attempt
of the call carries that same correlation id — the header lists sent
are constant (`List.replicate`); the trace id header behaves the
same way when tracing is enabled and is absent otherwise. -/
theorem claim1_correlation_id_per_call (cfg : APIConfig) (rid tid : String)
    (c : Option Nat) (t : Nat → TransportBehavior) :
    (request cfg rid tid c t).2.sentCorrelationIds =
      List.replicate (request cfg rid tid c t).2.attempts.length rid ∧
    (request cfg rid tid c t).2.sentTraceIds =
      (if cfg.enableTracing then
        List.replicate (request cfg rid tid c t).2.attempts.length tid
      else []) := by
  obtain ⟨k, h1, h2, h3⟩ := requestLoop_ids cfg rid tid t (effectiveDeadline cfg c)
    (cfg.retryAttempts + 1) 0 0 0 none Trace.empty
  unfold request
  rw [h1, h2, h3]
  constructor <;> simp [Trace.empty]

/-- C2, counterexample: with `timeoutMs = 100` the second attempt
starts 60 ms into the logical call and its transport would answer
after its own 80 ms — within the 100 ms budget measured from that
attempt's start — yet the call surfaces `TimeoutError`, because the
single abort timer armed at the start of the logical call fires at
the absolute time 100.  This refutes the claim that the budget runs
per attempt and restarts on each retry. -/
theorem claim2_counterexample :
    (request cfgTight "r" "t" none slowRetryTransport).1 =
      RequestResult.timeoutError 100 ∧
    (request cfgTight "r" "t" none slowRetryTransport).2.attempts =
      [⟨0, 10, .genericError⟩, ⟨60, 80, .abortError⟩] ∧
    80 < cfgTight.timeoutMs := by
  refine ⟨rfl, rfl, by decide⟩

/-- C2, amended: the timeout budget applies per logical call, not
per attempt: a single abort deadline — `timeoutMs`, possibly
shortened by an external cancellation — is armed when `request`
starts, and the call surfaces `TimeoutError` exactly when some
attempt starts at or after that absolute deadline or would complete
strictly after it; retries never restart the budget. -/
theorem claim2_timeout_per_logical_call (cfg : APIConfig) (rid tid : String)
    (c : Option Nat) (t : Nat → TransportBehavior) :
    (request cfg rid tid c t).1 = RequestResult.timeoutError cfg.timeoutMs ↔
      ∃ p ∈ (request cfg rid tid c t).2.attempts,
        effectiveDeadline cfg c ≤ p.start ∨
          effectiveDeadline cfg c < p.start + p.dur := by
  have hiff := requestLoop_timeout_iff cfg rid tid t (effectiveDeadline cfg c)
    (cfg.retryAttempts + 1) 0 0 0 none Trace.empty (by simp [Trace.empty])
  have halign := requestLoop_aligned cfg rid tid t (effectiveDeadline cfg c)
    (cfg.retryAttempts + 1) 0 0 0 none Trace.empty (by simp [Trace.empty])
  unfold request
  constructor
  · intro hx
    obtain ⟨p, hp, habort⟩ := hiff.mp hx
    exact ⟨p, hp, (halign p hp).mp habort⟩
  · rintro ⟨p, hp, hcond⟩
    exact hiff.mpr ⟨p, hp, (halign p hp).mpr hcond⟩

/-- C3, counterexample: with metrics enabled, `retryAttempts = 2`
and a transport that fails twice with transport-level exceptions and
then succeeds, the caller receives the success payload after three
transport attempts but exactly one metric sample is recorded — not
three — because `collectMetrics` runs only after `fetch` resolves
with a response.  This refutes the claim that every attempt appends
a sample regardless of failure kind. -/
theorem claim3_counterexample :
    (request cfgSmall "r" "t" none exceptionTwiceThenOk).1 = RequestResult.ok ∧
    (request cfgSmall "r" "t" none exceptionTwiceThenOk).2.attempts.length = 3 ∧
    (request cfgSmall "r" "t" none exceptionTwiceThenOk).2.samples.length = 1 := by
  refine ⟨rfl, rfl, rfl⟩

/-- C3, amended: with metrics enabled, exactly one sample is
appended per attempt on which the transport returned an HTTP
response — success or error status alike — capped at the last 1000;
attempts that end in a transport-level exception or an abort append
no sample.  With metrics disabled no sample is ever recorded. -/
theorem claim3_metrics_per_response_attempt (cfg : APIConfig)
    (rid tid : String) (c : Option Nat) (t : Nat → TransportBehavior) :
    (cfg.enableMetrics = true →
      (request cfg rid tid c t).2.samples.length =
        min (countResponses (request cfg rid tid c t).2.attempts) 1000) ∧
    (cfg.enableMetrics = false →
      (request cfg rid tid c t).2.samples = []) := by
  constructor
  · intro hm
    have h := requestLoop_samples_on cfg rid tid t (effectiveDeadline cfg c) hm
      (cfg.retryAttempts + 1) 0 0 0 none Trace.empty
      (by simp [Trace.empty, countResponses])
    unfold request
    exact h
  · intro hm
    have h := requestLoop_samples_off cfg rid tid t (effectiveDeadline cfg c) hm
      (cfg.retryAttempts + 1) 0 0 0 none Trace.empty
    unfold request
    rw [h]
    rfl

/-- C3, witness: the amended theorem applied to the concrete
`retryAttempts = 2` scenario whose two failures are HTTP 500
responses; there the sample count equals the response-attempt count
(three). -/
theorem claim3_witness :
    cfgSmall.enableMetrics = true ∧
    (request cfgSmall "r" "t" none httpErrorTwiceThenOk).2.samples.length =
      min (countResponses
        (request cfgSmall "r" "t" none httpErrorTwiceThenOk).2.attempts) 1000 :=
  ⟨rfl, (claim3_metrics_per_response_attempt cfgSmall "r" "t" none
    httpErrorTwiceThenOk).1 rfl⟩

/-- C4, counterexample: a call whose only attempt is in flight when
`cancelAllRequests()` aborts it at time 5 rejects with
`TimeoutError`, not with the transport-level failure kind
(`NetworkError`), because the catch block maps every `AbortError` to
`TimeoutError`.  This refutes the claim that aborted calls surface
as `TransportError`. -/
theorem claim4_counterexample :
    (request defaultConfig "r" "t" (some 5) slowTransport).1 =
      RequestResult.timeoutError 10000 ∧
    (request defaultConfig "r" "t" (some 5) slowTransport).1 ≠
      RequestResult.networkError := by
  refine ⟨rfl, by decide⟩

/-- C4, amended: `cancelAllRequests()` at time `c` aborts the
in-flight call and its pending promise rejects, but the rejection
surfaces as `TimeoutError` (the abort is indistinguishable from a
timeout in the catch block), not as the transport-level failure
kind. -/
theorem claim4_cancel_surfaces_timeout (cfg : APIConfig) (rid tid : String)
    (t : Nat → TransportBehavior) (c : Nat)
    (h : ∃ p ∈ (request cfg rid tid (some c) t).2.attempts,
      p.result = FetchResult.abortError) :
    (request cfg rid tid (some c) t).1 =
      RequestResult.timeoutError cfg.timeoutMs := by
  have hiff := requestLoop_timeout_iff cfg rid tid t
    (effectiveDeadline cfg (some c))
    (cfg.retryAttempts + 1) 0 0 0 none Trace.empty (by simp [Trace.empty])
  unfold request at h ⊢
  exact hiff.mpr h

/-- C4, witness: the amended theorem applied to a call cancelled at
time 5 while its 100 ms transport interaction is in flight. -/
theorem claim4_witness :
    (∃ p ∈ (request defaultConfig "r" "t" (some 5) slowTransport).2.attempts,
      p.result = FetchResult.abortError) ∧
    (request defaultConfig "r" "t" (some 5) slowTransport).1 =
      RequestResult.timeoutError 10000 :=
  ⟨by decide, claim4_cancel_surfaces_timeout defaultConfig "r" "t"
    slowTransport 5 (by decide)⟩

/-- C5 (confirmed, and strengthened to all runs): the transport is
invoked at most `retryAttempts + 1` times, the delay slept before
the retry following attempt `n` (0-indexed) is exactly
`retryDelayMs * 2 ^ n`, and the inter-attempt delays are therefore
monotonically non-decreasing. -/
theorem claim5_retry_backoff (cfg : APIConfig) (rid tid : String)
    (c : Option Nat) (t : Nat → TransportBehavior) :
    (request cfg rid tid c t).2.attempts.length ≤ cfg.retryAttempts + 1 ∧
    (request cfg rid tid c t).2.delays =
      (List.range (request cfg rid tid c t).2.delays.length).map
        (fun n => cfg.retryDelayMs * 2 ^ n) ∧
    List.Pairwise (· ≤ ·) (request cfg rid tid c t).2.delays := by
  have hlen := requestLoop_length_le cfg rid tid t (effectiveDeadline cfg c)
    (cfg.retryAttempts + 1) 0 0 0 none Trace.empty
  obtain ⟨k, hk⟩ := requestLoop_delays cfg rid tid t (effectiveDeadline cfg c)
    (cfg.retryAttempts + 1) 0 0 0 none Trace.empty (by omega)
  have hmap : (request cfg rid tid c t).2.delays =
      (List.range' 0 k).map (fun n => cfg.retryDelayMs * 2 ^ n) := by
    unfold request
    simpa [Trace.empty] using hk
  refine ⟨?_, ?_, ?_⟩
  · unfold request
    simpa [Trace.empty] using hlen
  · rw [hmap, List.length_map, List.length_range', List.range_eq_range']
  · rw [hmap, ← List.range_eq_range']
    refine List.pairwise_map.mpr ?_
    refine (List.pairwise_lt_range k).imp ?_
    intro a b hab
    exact Nat.mul_le_mul_left _ (Nat.pow_le_pow_right (by norm_num) (le_of_lt hab))

/-- C6 (confirmed): when the first attempt's transport response
carries status 401, 403 or 404 (and the attempt is not cut off by
the abort deadline), the transport is invoked exactly once — no
retry is performed — and the resulting protocol error propagates
immediately to the caller. -/
theorem claim6_no_retry_on_auth_status (cfg : APIConfig) (rid tid : String)
    (t : Nat → TransportBehavior) (st : Nat) (valid : Bool) (d : Nat)
    (hst : noRetryStatus st = true)
    (ht : t 0 = TransportBehavior.respond st valid d)
    (hpos : 0 < cfg.timeoutMs) (hd : d ≤ cfg.timeoutMs) :
    (request cfg rid tid none t).1 =
      RequestResult.protocolError st "HTTP_ERROR" ∧
    (request cfg rid tid none t).2.attempts.length = 1 := by
  have hcases : st = 401 ∨ st = 403 ∨ st = 404 := by
    simp only [noRetryStatus, Bool.or_eq_true, beq_iff_eq] at hst
    tauto
  have hok : isOkStatus st = false := by
    rcases hcases with rfl | rfl | rfl <;> rfl
  have hfetch : attemptFetch (effectiveDeadline cfg none) 0
      (TransportBehavior.respond st valid d) =
      (FetchResult.response st valid, d) := by
    simp only [effectiveDeadline]
    unfold attemptFetch
    rw [if_neg (by omega)]
    rw [if_neg (by simp only [TransportBehavior.duration]; omega)]
    simp
  unfold request
  rw [requestLoop, ht]
  simp only [hfetch]
  simp only [classifyTry, hok, Bool.false_eq_true, if_false]
  simp only [caughtNoRetry, hst, if_true]
  constructor
  · rfl
  · rw [maybeSample_attempts]
    simp [logAttempt, Trace.empty]

/-- C6, witness: the theorem applied to a transport answering 401 on
the default configuration. -/
theorem claim6_witness :
    noRetryStatus 401 = true ∧
    (request defaultConfig "r" "t" none unauthorizedTransport).1 =
      RequestResult.protocolError 401 "HTTP_ERROR" ∧
    (request defaultConfig "r" "t" none unauthorizedTransport).2.attempts.length = 1 := by
  refine ⟨rfl, ?_, ?_⟩
  · exact (claim6_no_retry_on_auth_status defaultConfig "r" "t"
      unauthorizedTransport 401 true 1 rfl rfl (by decide) (by decide)).1
  · exact (claim6_no_retry_on_auth_status defaultConfig "r" "t"
      unauthorizedTransport 401 true 1 rfl rfl (by decide) (by decide)).2

end ApiClient
end DesignSystem

namespace DesignSystem
namespace WsClient

/-- The receipt bookkeeping never changes which cache handle the
client holds. -/
theorem recordReceive_hasQueryClient (st : ClientState) (rt : Int)
    (m : RawMessage) :
    (recordReceive st rt m).hasQueryClient = st.hasQueryClient := by
  unfold recordReceive
  rcases m.timestamp with _ | s
  · rfl
  · simp only []
    split <;> rfl

/-- Effects of the cache bridge on a `security_alert` frame. -/
theorem processMessage_security_alert (st : ClientState) (m : RawMessage)
    (hqc : st.hasQueryClient = true) (hty : m.type = some "security_alert") :
    (processMessage st m).2 =
      WSEffect.invalidateQueries ["pulse", "violations"] ::
        (match m.data with
          | some d =>
            match d.violationId with
            | some v => [WSEffect.setQueryData ["pulse", "violations", v] d]
            | none => []
          | none => []) := by
  simp only [processMessage, hqc, hty]
  rcases hd : m.data with _ | d
  · simp [hd]
  · rcases hdv : d.violationId with _ | v <;> simp [hd, hdv]

/-- C7 (confirmed): an inbound frame whose parsed payload is missing
the kind/`type`, `timestamp`, or correlation-id/`requestId` field
leaves the client state untouched — in particular
`messagesReceived` is not incremented — and produces only the
diagnostic effect: no cache-bridge action and no user callback. -/
theorem claim7_invalid_message_dropped (st : ClientState) (rt : Int)
    (m : RawMessage)
    (h : m.type = none ∨ m.timestamp = none ∨ m.requestId = none) :
    handleMessage st rt (some m) = (st, [WSEffect.warnInvalid]) := by
  have hv : isValidMessage m = false := by
    rcases h with h | h | h <;> simp [isValidMessage, h]
  simp [handleMessage, hv]

/-- C7, witness: the theorem applied to a frame missing its `type`
field, delivered to a freshly constructed client. -/
theorem claim7_witness :
    handleMessage initState 5 (some missingKindMsg) =
      (initState, [WSEffect.warnInvalid]) :=
  claim7_invalid_message_dropped initState 5 missingKindMsg (Or.inl rfl)

/-- C8 (confirmed): a clean close (code 1000) never schedules a
reconnect; any other close code with budget remaining schedules
exactly one reconnect timer and enters `reconnecting` with the
attempt counter bumped; once the budget (`reconnectAttempts`,
default 10) is exhausted no close schedules a timer, the failure
handler enters the terminal `failed` state scheduling nothing, and a
second reconnect request within one backoff cycle is a no-op. -/
theorem claim8_reconnect_policy :
    (∀ cfg st, handleClose cfg st 1000 =
      ({ st with state := ConnectionState.disconnected, heartbeatTimer := false },
        [WSEffect.onDisconnectCallback])) ∧
    (∀ cfg st code, code ≠ 1000 →
      st.reconnectAttempts < cfg.reconnectAttempts →
      countScheduled (handleClose cfg st code).2 = 1 ∧
      (handleClose cfg st code).1.state = ConnectionState.reconnecting ∧
      (handleClose cfg st code).1.reconnectAttempts = st.reconnectAttempts + 1) ∧
    (∀ cfg st code, cfg.reconnectAttempts ≤ st.reconnectAttempts →
      countScheduled (handleClose cfg st code).2 = 0) ∧
    (∀ cfg st, cfg.reconnectAttempts ≤ st.reconnectAttempts →
      reconnectFailed cfg st =
        ({ st with state := ConnectionState.failed }, [])) ∧
    (∀ cfg st, st.state ≠ ConnectionState.reconnecting →
      st.reconnectAttempts < cfg.reconnectAttempts →
      countScheduled (reconnectFailed cfg st).2 = 1 ∧
      (reconnectFailed cfg st).1.state = ConnectionState.reconnecting) ∧
    (∀ cfg st, st.state = ConnectionState.reconnecting →
      attemptReconnect cfg st = (st, [])) ∧
    defaultWSConfig.reconnectAttempts = 10 := by
  refine ⟨?_, ?_, ?_, ?_, ?_, ?_, rfl⟩
  · intro cfg st
    simp [handleClose]
  · intro cfg st code hcode hlt
    simp [handleClose, hcode, hlt, attemptReconnect, countScheduled]
  · intro cfg st code hge
    simp [handleClose, Nat.not_lt.mpr hge, countScheduled]
  · intro cfg st hge
    simp [reconnectFailed, hge]
  · intro cfg st hstate hlt
    simp [reconnectFailed, Nat.not_le.mpr hlt, attemptReconnect, hstate,
      countScheduled]
  · intro cfg st hstate
    simp [attemptReconnect, hstate]

/-- C8, witness: the theorem's components applied to the default
configuration — a clean close of a fresh client, a 1006 close of a
fresh client, a 1006 close and a failure with the budget exhausted,
a failure mid-cycle, and a duplicate reconnect request. -/
theorem claim8_witness :
    handleClose defaultWSConfig initState 1000 =
      ({ initState with state := ConnectionState.disconnected, heartbeatTimer := false },
        [WSEffect.onDisconnectCallback]) ∧
    countScheduled (handleClose defaultWSConfig initState 1006).2 = 1 ∧
    (handleClose defaultWSConfig initState 1006).1.state =
      ConnectionState.reconnecting ∧
    countScheduled (handleClose defaultWSConfig exhaustedState 1006).2 = 0 ∧
    reconnectFailed defaultWSConfig exhaustedState =
      ({ exhaustedState with state := ConnectionState.failed }, []) ∧
    countScheduled (reconnectFailed defaultWSConfig midReconnectState).2 = 1 ∧
    attemptReconnect defaultWSConfig
        { initState with state := ConnectionState.reconnecting } =
      ({ initState with state := ConnectionState.reconnecting }, []) :=
  ⟨claim8_reconnect_policy.1 defaultWSConfig initState,
    (claim8_reconnect_policy.2.1 defaultWSConfig initState 1006
      (by decide) (by decide)).1,
    (claim8_reconnect_policy.2.1 defaultWSConfig initState 1006
      (by decide) (by decide)).2.1,
    claim8_reconnect_policy.2.2.1 defaultWSConfig exhaustedState 1006 (by decide),
    claim8_reconnect_policy.2.2.2.1 defaultWSConfig exhaustedState (by decide),
    (claim8_reconnect_policy.2.2.2.2.1 defaultWSConfig midReconnectState
      (by decide) (by decide)).1,
    claim8_reconnect_policy.2.2.2.2.2.1 defaultWSConfig
      { initState with state := ConnectionState.reconnecting } rfl⟩

/-- C9 (confirmed): a structurally valid `security_alert` frame
delivered to a client holding the cache handle makes the cache
bridge invalidate the violations list key, and when the payload
carries `data.violationId = v` it additionally overwrites that
item's individual cache entry with the payload. -/
theorem claim9_security_alert_cache (st : ClientState) (rt : Int)
    (m : RawMessage)
    (hqc : st.hasQueryClient = true) (hv : isValidMessage m = true)
    (hty : m.type = some "security_alert") :
    WSEffect.invalidateQueries ["pulse", "violations"] ∈
      (handleMessage st rt (some m)).2 ∧
    ∀ d v, m.data = some d → d.violationId = some v →
      WSEffect.setQueryData ["pulse", "violations", v] d ∈
        (handleMessage st rt (some m)).2 := by
  have heff : (handleMessage st rt (some m)).2 =
      (processMessage (recordReceive st rt m) m).2 ++ [WSEffect.onMessageCallback] := by
    simp [handleMessage, hv]
  rw [heff, processMessage_security_alert (recordReceive st rt m) m
    (by rw [recordReceive_hasQueryClient]; exact hqc) hty]
  constructor
  · simp
  · intro d v hd hvio
    simp [hd, hvio]

/-- C9, witness: the theorem applied to the specification's
end-to-end scenario, a `security_alert` frame with
`data.violationId = "v-1"`. -/
theorem claim9_witness :
    WSEffect.invalidateQueries ["pulse", "violations"] ∈
      (handleMessage { initState with hasQueryClient := true } 5
        (some securityAlertMsg)).2 ∧
    WSEffect.setQueryData ["pulse", "violations", "v-1"] ⟨some "v-1"⟩ ∈
      (handleMessage { initState with hasQueryClient := true } 5
        (some securityAlertMsg)).2 := by
  have h := claim9_security_alert_cache { initState with hasQueryClient := true }
    5 securityAlertMsg rfl rfl rfl
  exact ⟨h.1, h.2 ⟨some "v-1"⟩ "v-1" rfl rfl⟩

/-- C10 (confirmed): calling `connect` while a socket is held and
the state is `connected` resolves immediately, opens no new
transport connection, and returns the state unchanged — connection
state, metrics, reconnect counter and outbound queue included — and
the stored cache handle is not replaced by the argument. -/
theorem claim10_connect_idempotent (st : ClientState) (qc : Bool) (now : Int)
    (hws : st.ws = true) (hst : st.state = ConnectionState.connected) :
    connect st qc now = (st, ConnectEffect.resolvedImmediately) := by
  simp [connect, hws, hst]

/-- C10, witness: the theorem applied to a connected client. -/
theorem claim10_witness :
    connect { initState with ws := true, state := .connected } false 7 =
      ({ initState with ws := true, state := .connected },
        ConnectEffect.resolvedImmediately) :=
  claim10_connect_idempotent _ false 7 rfl rfl

end WsClient
end DesignSystem
